import Mathlib

/-!
Verification of the OrbitXE relay server and desktop input engine.

The definitions below are a shallow embedding of the code:
- the WebSocket relay in src/server/index.js (rooms map, message handler,
  broadcastStatus, close/reap logic);
- the site classifier getSiteType in src/extension/content.js and the
  profile classifier detectSiteProfile in src/extension/popup.js;
- the keystroke, shortcut and mouse simulation in src/desktop-app/main.js
  (nut-js backend path), parseShortcut and executeShortcut;
- the reconnect backoff in src/extension/background.js;
- the session-token middleware in src/desktop-app/main.js.

Machine state that JavaScript mutates in place is passed explicitly; the
sends performed by a handler are returned as a list, in program order.
-/

namespace OrbitXE

/-- A WebSocket peer as the server sees it: its identity (object identity in
JavaScript, a numeric id here), its readyState (1 = open) and the optional
subtype tag (the server only ever sets "tv"). -/
structure Peer where
  id : Nat
  readyState : Nat
  subtype : Option String
deriving DecidableEq, Repr

/-- A room of the relay server: displays set, controllers set (kept as lists
in insertion order), and the mutable per-room fields activeTab and activeApp
from src/server/index.js. -/
structure Room where
  displays : List Peer
  controllers : List Peer
  activeTab : Option Nat
  activeApp : Option String
deriving DecidableEq, Repr

/-- The room created lazily by the join handler:
{ displays: new Set(), controllers: new Set(), activeTab: null, ... }. -/
def emptyRoom : Room :=
  { displays := [], controllers := [], activeTab := none, activeApp := none }

/-- The rooms map, as an association list from room id to room. -/
abbrev Registry := List (String × Room)

/-- Inbound wire messages, discriminated by their type field, restricted to
the fields the server reads. -/
inductive Msg where
  | join (role : String) (subtype : Option String)
  | ping
  | action (act : String) (value : Option Int)
  | mouse (x y : Int) (act : Option String)
  | keyboard (key text : Option String)
  | scroll (deltaX deltaY : Int)
  | showCursor
  | switchTab (tabId : Nat)
  | openTab (url : String)
  | getTabs
  | showKeyboard
  | activeTabInfo (siteType : String)
  | tabList (tabs : List String)
  | setProfile (profile : String)
  | dpad (direction : String)
  | launchApp (appId : String)
  | volume (act : String)
  | voice (query : String)
  | home
  | tvState
  | nowPlaying
deriving DecidableEq, Repr

/-- Payloads the server writes to a socket: either the JSON of a (possibly
re-encoded) message, or one of the server-generated messages. -/
inductive Out where
  | relay (m : Msg)
  | pong
  | statusOut (controllers displays : Nat)
  | joinedOut (controllers displays : Nat)
  | tvConnected
deriving DecidableEq, Repr

/-- One send performed by the server: target peer id and payload. -/
structure Send where
  target : Nat
  payload : Out
deriving DecidableEq, Repr

/-- Fan a payload out to every peer of the list whose readyState is 1, in
list order (forEach with the readyState === 1 guard). -/
def relayTo (peers : List Peer) (out : Out) : List Send :=
  (peers.filter (fun p => p.readyState == 1)).map (fun p => ⟨p.id, out⟩)

/-- Fan out to open peers whose subtype is "tv"
(d.readyState === 1 && d.subtype === 'tv'). -/
def relayToTv (peers : List Peer) (out : Out) : List Send :=
  (peers.filter (fun p => p.readyState == 1 && p.subtype == some "tv")).map
    (fun p => ⟨p.id, out⟩)

/-- Fan out to open peers that carry no subtype
(d.readyState === 1 && !d.subtype). -/
def relayToUntagged (peers : List Peer) (out : Out) : List Send :=
  (peers.filter (fun p => p.readyState == 1 && p.subtype == none)).map
    (fun p => ⟨p.id, out⟩)

/-- broadcastStatus(room): a status message with the current counts, sent to
every open display, then to every open controller. -/
def broadcastStatus (room : Room) : List Send :=
  relayTo room.displays (.statusOut room.controllers.length room.displays.length) ++
  relayTo room.controllers (.statusOut room.controllers.length room.displays.length)

/-- rooms.get(roomId). -/
def lookupRoom (rooms : Registry) (roomId : String) : Option Room :=
  (List.find? (fun p => p.1 == roomId) rooms).map (fun p => p.2)

/-- Replacing the room stored under a key (in-place mutation of the room
object in JavaScript). -/
def updateRoom (rooms : Registry) (roomId : String) (r : Room) : Registry :=
  List.map (fun p => if p.1 == roomId then (p.1, r) else p) rooms

/-- The join branch of the message handler, including the later
join-with-subtype-tv block of the same handler: create the room if missing,
add the sender to the set for its role, notify a joining controller when a tv
display is present, broadcast status, acknowledge with joined, and when the
join carries subtype tv, tag the sender and notify every open controller. -/
def handleJoin (rooms : Registry) (roomId : String) (ws : Peer)
    (role : String) (subtype : Option String) : Registry × List Send :=
  let room0 := (lookupRoom rooms roomId).getD emptyRoom
  let ws' := if subtype == some "tv" then { ws with subtype := some "tv" } else ws
  let room1 :=
    if role == "display" then { room0 with displays := room0.displays ++ [ws'] }
    else { room0 with controllers := room0.controllers ++ [ws'] }
  let selfTvNotify :=
    if role == "display" then []
    else if room0.displays.any (fun d => d.subtype == some "tv") then
      [Send.mk ws.id .tvConnected]
    else []
  let rooms' :=
    if (lookupRoom rooms roomId).isSome then updateRoom rooms roomId room1
    else rooms ++ [(roomId, room1)]
  let joinSends :=
    selfTvNotify ++ broadcastStatus room1 ++
    [Send.mk ws.id (.joinedOut room1.controllers.length room1.displays.length)]
  let tvBlockSends :=
    if subtype == some "tv" then relayTo room1.controllers .tvConnected else []
  (rooms', joinSends ++ tvBlockSends)

/-- The relay section of the message handler for a room that exists: one
branch per message type, returning the (possibly updated) room and the sends,
exactly as in src/server/index.js lines 435-566. join and ping never reach
this section. -/
def routeMsg (room : Room) (msg : Msg) : Room × List Send :=
  match msg with
  | .action a v => (room, relayTo room.displays (.relay (.action a v)))
  | .mouse x y a => (room, relayTo room.displays (.relay (.mouse x y a)))
  | .keyboard k t => (room, relayTo room.displays (.relay (.keyboard k t)))
  | .scroll dx dy => (room, relayTo room.displays (.relay (.scroll dx dy)))
  | .showCursor => (room, relayTo room.displays (.relay .showCursor))
  | .switchTab tabId => (room, relayTo room.displays (.relay (.switchTab tabId)))
  | .openTab url => (room, relayTo room.displays (.relay (.openTab url)))
  | .getTabs => (room, relayTo room.displays (.relay .getTabs))
  | .showKeyboard => (room, relayTo room.controllers (.relay .showKeyboard))
  | .activeTabInfo s => (room, relayTo room.controllers (.relay (.activeTabInfo s)))
  | .tabList ts => (room, relayTo room.controllers (.relay (.tabList ts)))
  | .setProfile _ => (room, [])
  | .dpad dir =>
      (room,
        relayToTv room.displays (.relay (.dpad dir)) ++
        relayToUntagged room.displays (.relay (.action dir none)))
  | .launchApp appId =>
      ({ room with activeApp := some appId },
        relayToTv room.displays (.relay (.launchApp appId)))
  | .volume a => (room, relayToTv room.displays (.relay (.volume a)))
  | .voice q => (room, relayToTv room.displays (.relay (.voice q)))
  | .home => ({ room with activeApp := none }, relayToTv room.displays (.relay .home))
  | .tvState => (room, relayTo room.controllers (.relay .tvState))
  | .nowPlaying => (room, relayTo room.controllers (.relay .nowPlaying))
  | .join _ _ => (room, [])
  | .ping => (room, [])

/-- The whole ws.on('message') handler: join creates or populates the room,
ping is answered with pong before the room lookup and returns, and every
other message is dropped without effect when the room is unknown, otherwise
routed by its type. -/
def handleMessage (rooms : Registry) (roomId : String) (sender : Peer)
    (msg : Msg) : Registry × List Send :=
  match msg with
  | .join role subtype => handleJoin rooms roomId sender role subtype
  | .ping => (rooms, [Send.mk sender.id .pong])
  | m =>
    match lookupRoom rooms roomId with
    | none => (rooms, [])
    | some room =>
        let rs := routeMsg room m
        (updateRoom rooms roomId rs.1, rs.2)

/-!
Room reaping (ws.on('close') in src/server/index.js): when a closing socket
leaves both peer sets empty, a 60000 ms timer is armed; when it fires, the
room is deleted only if it is still empty. The model below tracks one room as
a timed transition system: peer counts, presence in the registry, and the
multiset of armed timer fire times. An event carries the wall-clock time at
which it happens; a timer callback only runs for a fire time that was armed.
-/

/-- The observable state of one room code in the reaping model. -/
structure ReapState where
  present : Bool
  controllers : Nat
  displays : Nat
  timers : List Nat
deriving DecidableEq, Repr

/-- Events affecting one room code: a peer joins (creating the room when it
is absent, as the join handler does), a peer socket closes, or an armed
cleanup timer fires. The Nat is the wall-clock time of the event in ms. -/
inductive REvent where
  | joinEv (isDisplay : Bool) (t : Nat)
  | closeEv (isDisplay : Bool) (t : Nat)
  | fireEv (t : Nat)
deriving DecidableEq, Repr

/-- One step of the reaping model. joinEv: the join handler creates the room
when absent and adds the peer to its role set. closeEv: the close handler
returns when the room is absent, otherwise removes the peer and, if both sets
are now empty, arms a timer for now + 60000. fireEv: the armed setTimeout
callback runs, and deletes the room only if it still exists with both sets
empty. -/
def reapStep (s : ReapState) (e : REvent) : ReapState :=
  match e with
  | .joinEv isD _ =>
      let base := if s.present then s else { s with present := true, controllers := 0, displays := 0 }
      if isD then { base with displays := base.displays + 1 }
      else { base with controllers := base.controllers + 1 }
  | .closeEv isD t =>
      if s.present then
        let s' := if isD then { s with displays := s.displays - 1 }
                  else { s with controllers := s.controllers - 1 }
        if s'.displays = 0 ∧ s'.controllers = 0 then
          { s' with timers := s'.timers ++ [t + 60000] }
        else s'
      else s
  | .fireEv t =>
      if t ∈ s.timers then
        let s' := { s with timers := s.timers.erase t }
        if s'.present ∧ s'.displays = 0 ∧ s'.controllers = 0 then
          { s' with present := false }
        else s'
      else s

/-- Running the reaping model over a list of events. -/
def reapRun (s : ReapState) (evts : List REvent) : ReapState :=
  evts.foldl reapStep s

/-!
Site classifier: getSiteType from src/extension/content.js classifies the
current hostname and path by substring containment, falling back to
"universal".
-/

/-- Whether needle occurs as a contiguous run at some position of hay. -/
def charsInclude (needle : List Char) : List Char → Bool
  | [] => needle.isPrefixOf ([] : List Char)
  | c :: rest => needle.isPrefixOf (c :: rest) || charsInclude needle rest

/-- JavaScript String.prototype.includes: substring containment. -/
def strIncludes (s sub : String) : Bool :=
  charsInclude sub.data s.data

/-- getSiteType from src/extension/content.js, over an explicit hostname and
pathname. -/
def getSiteType (host path : String) : String :=
  if strIncludes host "youtube.com" then "youtube"
  else if strIncludes host "netflix.com" then "netflix"
  else if strIncludes host "vimeo.com" then "vimeo"
  else if strIncludes host "twitch.tv" then "twitch"
  else if strIncludes host "spotify.com" then "spotify"
  else if strIncludes host "primevideo.com" then "primevideo"
  else if strIncludes host "disneyplus.com" then "disneyplus"
  else if strIncludes host "docs.google.com" && strIncludes path "/presentation" then "slides"
  else if strIncludes host "docs.google.com" && strIncludes path "/document" then "docs"
  else if strIncludes host "docs.google.com" && strIncludes path "/spreadsheets" then "sheets"
  else if strIncludes host "notion.so" then "notion"
  else if strIncludes host "figma.com" then "figma"
  else if strIncludes host "zoom.us" then "zoom"
  else if strIncludes host "meet.google.com" then "meet"
  else if strIncludes host "teams.microsoft.com" then "teams"
  else "universal"

/-- detectSiteProfile from src/extension/popup.js: the profile classifier
that picks the best profile for the current hostname and pathname, falling
back to universal when no domain/path pattern matches. The canva.com branch
keeps the JavaScript precedence, where the path check binds only to
canva.com. -/
def detectSiteProfile (host path : String) : String :=
  if strIncludes host "youtube.com" || strIncludes host "netflix.com" ||
      strIncludes host "vimeo.com" || strIncludes host "twitch.tv" ||
      strIncludes host "disneyplus.com" || strIncludes host "hulu.com" ||
      strIncludes host "primevideo.com" then "video"
  else if strIncludes host "docs.google.com" && strIncludes path "/presentation" then
    "presentation"
  else if strIncludes host "slides.google.com" || strIncludes host "prezi.com" ||
      (strIncludes host "canva.com" && strIncludes path "/design") then
    "presentation"
  else if strIncludes host "zoom.us" || strIncludes host "meet.google.com" ||
      strIncludes host "teams.microsoft.com" || strIncludes host "webex.com" then
    "meeting"
  else if strIncludes host "medium.com" || strIncludes host "reddit.com" ||
      strIncludes host "news.ycombinator.com" || strIncludes host "wikipedia.org" ||
      strIncludes host "substack.com" then
    "scroll"
  else "universal"

/-!
Keystroke engine, nut-js backend path of simulateKeystroke in
src/desktop-app/main.js, plus parseShortcut and executeShortcut. A key or
modifier is represented by the name of the nut-js Key constant it resolves
to; the emitted automation calls are press/release events in program order.
-/

/-- JavaScript toLowerCase on one character, over the ASCII range the key
and modifier names live in. -/
def charToLower (c : Char) : Char :=
  match c with
  | 'A' => 'a' | 'B' => 'b' | 'C' => 'c' | 'D' => 'd' | 'E' => 'e' | 'F' => 'f'
  | 'G' => 'g' | 'H' => 'h' | 'I' => 'i' | 'J' => 'j' | 'K' => 'k' | 'L' => 'l'
  | 'M' => 'm' | 'N' => 'n' | 'O' => 'o' | 'P' => 'p' | 'Q' => 'q' | 'R' => 'r'
  | 'S' => 's' | 'T' => 't' | 'U' => 'u' | 'V' => 'v' | 'W' => 'w' | 'X' => 'x'
  | 'Y' => 'y' | 'Z' => 'z'
  | other => other

/-- JavaScript toLowerCase on a string. -/
def strToLower (s : String) : String :=
  String.mk (s.data.map charToLower)

/-- Splitting a character list on a separator character, keeping empty
pieces, as JavaScript split does. -/
def splitChars (sep : Char) : List Char → List (List Char)
  | [] => [[]]
  | c :: rest =>
      let r := splitChars sep rest
      if c == sep then [] :: r
      else (c :: r.headD []) :: r.tail

/-- JavaScript String.prototype.split with a one-character separator. -/
def jsSplit (s : String) (sep : Char) : List String :=
  (splitChars sep s.data).map String.mk

/-- A single automation call of the keyboard backend. -/
inductive KeyEvent where
  | press (k : String)
  | release (k : String)
deriving DecidableEq, Repr

/-- The nutKeyMap table of simulateKeystroke: lower-cased character or key
name to the nut-js Key constant. -/
def nutKeyMap : String → Option String
  | "up" => some "Up" | "down" => some "Down" | "left" => some "Left" | "right" => some "Right"
  | "enter" => some "Enter" | "return" => some "Enter" | "space" => some "Space"
  | "escape" => some "Escape" | "tab" => some "Tab" | "backspace" => some "Backspace"
  | "delete" => some "Delete"
  | "f1" => some "F1" | "f2" => some "F2" | "f3" => some "F3" | "f4" => some "F4"
  | "f5" => some "F5" | "f6" => some "F6" | "f7" => some "F7" | "f8" => some "F8"
  | "f9" => some "F9" | "f10" => some "F10" | "f11" => some "F11" | "f12" => some "F12"
  | "home" => some "Home" | "end" => some "End" | "pageup" => some "PageUp"
  | "pagedown" => some "PageDown"
  | "a" => some "A" | "b" => some "B" | "c" => some "C" | "d" => some "D" | "e" => some "E"
  | "f" => some "F" | "g" => some "G" | "h" => some "H" | "i" => some "I" | "j" => some "J"
  | "k" => some "K" | "l" => some "L" | "m" => some "M" | "n" => some "N" | "o" => some "O"
  | "p" => some "P" | "q" => some "Q" | "r" => some "R" | "s" => some "S" | "t" => some "T"
  | "u" => some "U" | "v" => some "V" | "w" => some "W" | "x" => some "X" | "y" => some "Y"
  | "z" => some "Z"
  | "=" => some "Equal" | "-" => some "Minus" | "[" => some "LeftBracket"
  | "]" => some "RightBracket" | "\\" => some "Backslash" | ";" => some "Semicolon"
  | "\'" => some "Quote"
  | "," => some "Comma" | "." => some "Period" | "/" => some "Slash" | "`" => some "Grave"
  | _ => none

/-- The nutModMap table: modifier token to the physical modifier key; the
command token resolves per platform (LeftSuper on mac, LeftControl
otherwise). -/
def nutModMap (isMac : Bool) : String → Option String
  | "command" => some (if isMac then "LeftSuper" else "LeftControl")
  | "control" => some "LeftControl"
  | "option" => some "LeftAlt"
  | "shift" => some "LeftShift"
  | _ => none

/-- The nut-js path of simulateKeystroke: resolve the base key and the
modifier tokens (unresolved tokens are filtered out), press the modifiers in
listed order, press then release the base key when it resolved, then release
the modifiers in reverse order. -/
def simulateKeystroke (isMac : Bool) (char : String) (modifiers : List String) :
    List KeyEvent :=
  let nutKey := nutKeyMap (strToLower char)
  let nutMods := modifiers.filterMap (nutModMap isMac)
  nutMods.map .press ++
    (match nutKey with | some k => [.press k, .release k] | none => []) ++
    nutMods.reverse.map .release

/-- Normalization of one modifier token in parseShortcut. -/
def normalizeMod (m : String) : String :=
  if m == "cmd" || m == "command" then "command"
  else if m == "ctrl" || m == "control" then "control"
  else if m == "alt" || m == "option" then "option"
  else if m == "shift" then "shift"
  else m

/-- parseShortcut from src/desktop-app/main.js: lower-case, split on plus,
the last part is the base key, the rest are normalized modifier tokens. -/
def parseShortcut (shortcut : String) : String × List String :=
  let parts := jsSplit (strToLower shortcut) '+'
  (parts.getLastD "", parts.dropLast.map normalizeMod)

/-- executeShortcut: parse the shortcut string and hand it to
simulateKeystroke. -/
def executeShortcut (isMac : Bool) (shortcut : String) : List KeyEvent :=
  let ks := parseShortcut shortcut
  simulateKeystroke isMac ks.1 ks.2

/-!
Mouse engine, nut-js backend path of simulateMouse in src/desktop-app/main.js.
The backend reports the current cursor position; a move computes the target
as position plus twice the delta (Math.round(x * 2), exact on integer deltas)
and passes it to setPosition as is.
-/

/-- A single automation call of the mouse backend. -/
inductive MouseCall where
  | setPosition (x y : Int)
  | leftClick
  | rightClick
  | doubleClick
  | pressButton
  | releaseButton
deriving DecidableEq, Repr

/-- The nut-js path of simulateMouse: posX, posY is the cursor position
reported by the backend; x, y the inbound deltas; the action tag selects the
call. -/
def simulateMouse (posX posY x y : Int) (action : Option String) : List MouseCall :=
  if action == some "move" || action == none then
    [.setPosition (posX + 2 * x) (posY + 2 * y)]
  else if action == some "click" then [.leftClick]
  else if action == some "rightclick" then [.rightClick]
  else if action == some "doubleclick" then [.doubleClick]
  else if action == some "dragstart" then [.pressButton]
  else if action == some "dragend" then [.releaseButton]
  else []

/-!
Reconnect supervisor of the relay client, src/extension/background.js: on
close, while the attempt counter is below MAX_RECONNECT_ATTEMPTS the counter
is incremented and a reconnect is scheduled after
min(1000 * attempts, 10000) ms; at the cap nothing is scheduled. A
successful open resets the counter.
-/

def MAX_RECONNECT_ATTEMPTS : Nat := 10

/-- The supervisor state: the consecutive failed-attempt counter. -/
structure SupState where
  reconnectAttempts : Nat
deriving DecidableEq, Repr

/-- ws.onclose: the next state and the scheduled reconnect delay in ms, none
when no reconnect is scheduled. -/
def wsOnClose (s : SupState) : SupState × Option Nat :=
  if s.reconnectAttempts < MAX_RECONNECT_ATTEMPTS then
    let s' : SupState := { reconnectAttempts := s.reconnectAttempts + 1 }
    (s', some (min (1000 * s'.reconnectAttempts) 10000))
  else (s, none)

/-- ws.onopen resets the attempt counter. -/
def wsOnOpen (_ : SupState) : SupState :=
  { reconnectAttempts := 0 }

/-!
Session-token middleware of the desktop agent, src/desktop-app/main.js: every
request whose path is not the QR page and not under /api/license must carry
the process session token in the s query parameter or the x-session header,
otherwise the server answers 403 and the endpoint handler never runs.
-/

/-- The parts of an HTTP request the middleware reads. -/
structure HttpRequest where
  path : String
  queryS : Option String
  headerXSession : Option String
deriving DecidableEq, Repr

/-- req.query.s || req.headers['x-session']: the query parameter wins unless
it is absent or empty (falsy). -/
def effectiveToken (req : HttpRequest) : Option String :=
  match req.queryS with
  | some s => if s == "" then req.headerXSession else some s
  | none => req.headerXSession

/-- Outcome of one request against the agent server. -/
inductive HttpResult where
  | forbidden (error : String)
  | handled
deriving DecidableEq, Repr

/-- The middleware plus the dispatched handler, which is abstracted by the
list of effects it would perform (input events synthesized, state changes).
The exempt paths pass through; any other request with a token different from
the process SESSION_TOKEN is answered 403 with the Invalid session error and
produces no handler effects. -/
def processRequest (sessionToken : String) (req : HttpRequest)
    (handlerEffects : List String) : HttpResult × List String :=
  if req.path == "/" || req.path.startsWith "/api/license" then
    (.handled, handlerEffects)
  else if effectiveToken req == some sessionToken then
    (.handled, handlerEffects)
  else (.forbidden "Invalid session", [])

/-!
Counting helpers for fan-out lists.
-/

/-- Counting sends to a given target over a pure fan-out equals counting
peers with that id. -/
theorem countP_target_map (l : List Peer) (out : Out) (j : Nat) :
    ((l.map (fun p => Send.mk p.id out)).countP (fun s => s.target == j)) =
      l.countP (fun p => p.id == j) := by
  induction l with
  | nil => rfl
  | cons p l ih => simp [List.countP_cons, ih]

/-- No peer of the list has the id, so the filtered fan-out counts zero. -/
theorem countP_id_filter_zero (l : List Peer) (q : Peer → Bool) (j : Nat)
    (h : ∀ x ∈ l, x.id ≠ j) :
    ((l.filter q).countP (fun p => p.id == j)) = 0 := by
  rw [List.countP_eq_zero]
  intro a ha
  simpa using h a (List.mem_of_mem_filter ha)

/-- With pairwise distinct ids, a member passing the filter is counted
exactly once. -/
theorem countP_id_filter_one (q : Peer → Bool) (d : Peer) (l : List Peer)
    (hnd : (l.map Peer.id).Nodup) (hd : d ∈ l) (hq : q d = true) :
    ((l.filter q).countP (fun p => p.id == d.id)) = 1 := by
  induction l with
  | nil => simp at hd
  | cons p l ih =>
    rw [List.map_cons, List.nodup_cons] at hnd
    obtain ⟨hpnotin, hndl⟩ := hnd
    rcases List.mem_cons.mp hd with heq | hmem
    · subst heq
      rw [List.filter_cons_of_pos hq, List.countP_cons]
      have h0 : ((l.filter q).countP (fun p => p.id == d.id)) = 0 := by
        refine countP_id_filter_zero l q d.id ?_
        intro x hx hxid
        exact hpnotin (hxid ▸ List.mem_map_of_mem Peer.id hx)
      simp [h0]
    · have hpd : (p.id == d.id) = false := by
        refine beq_eq_false_iff_ne.mpr ?_
        intro h
        exact hpnotin (h ▸ List.mem_map_of_mem Peer.id hmem)
      by_cases hqp : q p = true
      · rw [List.filter_cons_of_pos hqp, List.countP_cons, hpd]
        simpa using ih hndl hmem
      · rw [List.filter_cons_of_neg (by simp [hqp])]
        exact ih hndl hmem

/-- With pairwise distinct ids, a member failing the filter is not counted
at all. -/
theorem countP_id_filter_zero_of_neg (q : Peer → Bool) (d : Peer) (l : List Peer)
    (hnd : (l.map Peer.id).Nodup) (hd : d ∈ l) (hq : q d = false) :
    ((l.filter q).countP (fun p => p.id == d.id)) = 0 := by
  induction l with
  | nil => simp
  | cons p l ih =>
    rw [List.map_cons, List.nodup_cons] at hnd
    obtain ⟨hpnotin, hndl⟩ := hnd
    rcases List.mem_cons.mp hd with heq | hmem
    · subst heq
      rw [List.filter_cons_of_neg (by simp [hq])]
      refine countP_id_filter_zero l q d.id ?_
      intro x hx hxid
      exact hpnotin (hxid ▸ List.mem_map_of_mem Peer.id hx)
    · have hpd : (p.id == d.id) = false := by
        refine beq_eq_false_iff_ne.mpr ?_
        intro h
        exact hpnotin (h ▸ List.mem_map_of_mem Peer.id hmem)
      by_cases hqp : q p = true
      · rw [List.filter_cons_of_pos hqp, List.countP_cons, hpd]
        simpa using ih hndl hmem
      · rw [List.filter_cons_of_neg (by simp [hqp])]
        exact ih hndl hmem

/-- C1: in a session with at least one display and at least one controller,
an action message sent by a controller is relayed as one copy to every
display peer whose socket is open (readyState 1), in room order, and no copy
is queued to any controller peer. Peer ids are pairwise distinct (object
identity of the sockets). -/
theorem action_relay_to_open_displays
    (rooms : Registry) (roomId : String) (room : Room) (sender : Peer)
    (a : String) (v : Option Int)
    (hroom : lookupRoom rooms roomId = some room)
    (hdisp : room.displays ≠ []) (hctrl : room.controllers ≠ [])
    (hsender : sender ∈ room.controllers)
    (hnd : (room.displays.map Peer.id).Nodup)
    (hdisj : ∀ c ∈ room.controllers, ∀ d ∈ room.displays, c.id ≠ d.id) :
    (handleMessage rooms roomId sender (.action a v)).2 =
      relayTo room.displays (.relay (.action a v)) ∧
    (∀ d ∈ room.displays, d.readyState = 1 →
      ((handleMessage rooms roomId sender (.action a v)).2.countP
        (fun s => s.target == d.id)) = 1) ∧
    (∀ c ∈ room.controllers,
      ((handleMessage rooms roomId sender (.action a v)).2.countP
        (fun s => s.target == c.id)) = 0) := by
  have hsends : (handleMessage rooms roomId sender (.action a v)).2 =
      relayTo room.displays (.relay (.action a v)) := by
    simp [handleMessage, hroom, routeMsg]
  refine ⟨hsends, ?_, ?_⟩
  · intro d hd hopen
    rw [hsends]
    unfold relayTo
    rw [countP_target_map]
    exact countP_id_filter_one _ d room.displays hnd hd (by simp [hopen])
  · intro c hc
    rw [hsends]
    unfold relayTo
    rw [countP_target_map]
    refine countP_id_filter_zero _ _ _ ?_
    intro x hx
    exact (hdisj c hc x hx).symm

/-- Witness for C1 on a concrete room: one open display (id 1), one closed
display (id 3), one controller (id 2) that is the sender. -/
theorem action_relay_to_open_displays_witness :
    (handleMessage
        [("R", ⟨[⟨1, 1, none⟩, ⟨3, 0, none⟩], [⟨2, 1, none⟩], none, none⟩)]
        "R" ⟨2, 1, none⟩ (.action "up" none)).2 =
      relayTo [⟨1, 1, none⟩, ⟨3, 0, none⟩] (.relay (.action "up" none)) ∧
    (∀ d ∈ ([⟨1, 1, none⟩, ⟨3, 0, none⟩] : List Peer), d.readyState = 1 →
      ((handleMessage
          [("R", ⟨[⟨1, 1, none⟩, ⟨3, 0, none⟩], [⟨2, 1, none⟩], none, none⟩)]
          "R" ⟨2, 1, none⟩ (.action "up" none)).2.countP
        (fun s => s.target == d.id)) = 1) ∧
    (∀ c ∈ ([⟨2, 1, none⟩] : List Peer),
      ((handleMessage
          [("R", ⟨[⟨1, 1, none⟩, ⟨3, 0, none⟩], [⟨2, 1, none⟩], none, none⟩)]
          "R" ⟨2, 1, none⟩ (.action "up" none)).2.countP
        (fun s => s.target == c.id)) = 0) :=
  action_relay_to_open_displays
    [("R", ⟨[⟨1, 1, none⟩, ⟨3, 0, none⟩], [⟨2, 1, none⟩], none, none⟩)]
    "R" ⟨[⟨1, 1, none⟩, ⟨3, 0, none⟩], [⟨2, 1, none⟩], none, none⟩ ⟨2, 1, none⟩
    "up" none (by decide) (by decide) (by decide) (by decide) (by decide) (by decide)

/-- C2: a dpad message on a live session is delivered unmodified to exactly
the open display peers tagged tv, re-encoded as a generic action to exactly
the open display peers with no subtype, once each; displays with any other
tag and all controller peers receive nothing. -/
theorem dpad_dual_routing
    (rooms : Registry) (roomId : String) (room : Room) (sender : Peer)
    (dir : String)
    (hroom : lookupRoom rooms roomId = some room)
    (hnd : (room.displays.map Peer.id).Nodup)
    (hdisj : ∀ c ∈ room.controllers, ∀ d ∈ room.displays, c.id ≠ d.id) :
    (handleMessage rooms roomId sender (.dpad dir)).2 =
      relayToTv room.displays (.relay (.dpad dir)) ++
      relayToUntagged room.displays (.relay (.action dir none)) ∧
    (∀ d ∈ room.displays, d.readyState = 1 → d.subtype = some "tv" →
      ((handleMessage rooms roomId sender (.dpad dir)).2.countP
        (fun s => s.target == d.id)) = 1) ∧
    (∀ d ∈ room.displays, d.readyState = 1 → d.subtype = none →
      ((handleMessage rooms roomId sender (.dpad dir)).2.countP
        (fun s => s.target == d.id)) = 1) ∧
    (∀ d ∈ room.displays, d.subtype ≠ some "tv" → d.subtype ≠ none →
      ((handleMessage rooms roomId sender (.dpad dir)).2.countP
        (fun s => s.target == d.id)) = 0) ∧
    (∀ c ∈ room.controllers,
      ((handleMessage rooms roomId sender (.dpad dir)).2.countP
        (fun s => s.target == c.id)) = 0) := by
  have hsends : (handleMessage rooms roomId sender (.dpad dir)).2 =
      relayToTv room.displays (.relay (.dpad dir)) ++
      relayToUntagged room.displays (.relay (.action dir none)) := by
    simp [handleMessage, hroom, routeMsg]
  have hcount : ∀ j : Nat,
      ((handleMessage rooms roomId sender (.dpad dir)).2.countP
        (fun s => s.target == j)) =
      ((room.displays.filter
          (fun p => p.readyState == 1 && p.subtype == some "tv")).countP
        (fun p => p.id == j)) +
      ((room.displays.filter
          (fun p => p.readyState == 1 && p.subtype == none)).countP
        (fun p => p.id == j)) := by
    intro j
    rw [hsends]
    unfold relayToTv relayToUntagged
    rw [List.countP_append, countP_target_map, countP_target_map]
  refine ⟨hsends, ?_, ?_, ?_, ?_⟩
  · intro d hd hopen htv
    rw [hcount]
    rw [countP_id_filter_one _ d room.displays hnd hd (by simp [hopen, htv]),
      countP_id_filter_zero_of_neg _ d room.displays hnd hd (by simp [htv])]
  · intro d hd hopen hnone
    rw [hcount]
    rw [countP_id_filter_zero_of_neg _ d room.displays hnd hd (by simp [hnone]),
      countP_id_filter_one _ d room.displays hnd hd (by simp [hopen, hnone])]
  · intro d hd htv hnone
    rw [hcount]
    rw [countP_id_filter_zero_of_neg _ d room.displays hnd hd (by simp [htv]),
      countP_id_filter_zero_of_neg _ d room.displays hnd hd (by simp [hnone])]
  · intro c hc
    rw [hcount]
    rw [countP_id_filter_zero _ _ _ (fun x hx => (hdisj c hc x hx).symm),
      countP_id_filter_zero _ _ _ (fun x hx => (hdisj c hc x hx).symm)]

/-- Witness for C2 on a concrete room: an open tv display (id 1), an open
untagged display (id 3), an open display with another tag (id 4), and the
controller sender (id 2). -/
theorem dpad_dual_routing_witness :
    (handleMessage
        [("R", ⟨[⟨1, 1, some "tv"⟩, ⟨3, 1, none⟩, ⟨4, 1, some "x"⟩],
          [⟨2, 1, none⟩], none, none⟩)]
        "R" ⟨2, 1, none⟩ (.dpad "left")).2 =
      relayToTv [⟨1, 1, some "tv"⟩, ⟨3, 1, none⟩, ⟨4, 1, some "x"⟩]
        (.relay (.dpad "left")) ++
      relayToUntagged [⟨1, 1, some "tv"⟩, ⟨3, 1, none⟩, ⟨4, 1, some "x"⟩]
        (.relay (.action "left" none)) ∧
    (∀ d ∈ ([⟨1, 1, some "tv"⟩, ⟨3, 1, none⟩, ⟨4, 1, some "x"⟩] : List Peer),
      d.readyState = 1 → d.subtype = some "tv" →
      ((handleMessage
          [("R", ⟨[⟨1, 1, some "tv"⟩, ⟨3, 1, none⟩, ⟨4, 1, some "x"⟩],
            [⟨2, 1, none⟩], none, none⟩)]
          "R" ⟨2, 1, none⟩ (.dpad "left")).2.countP
        (fun s => s.target == d.id)) = 1) ∧
    (∀ d ∈ ([⟨1, 1, some "tv"⟩, ⟨3, 1, none⟩, ⟨4, 1, some "x"⟩] : List Peer),
      d.readyState = 1 → d.subtype = none →
      ((handleMessage
          [("R", ⟨[⟨1, 1, some "tv"⟩, ⟨3, 1, none⟩, ⟨4, 1, some "x"⟩],
            [⟨2, 1, none⟩], none, none⟩)]
          "R" ⟨2, 1, none⟩ (.dpad "left")).2.countP
        (fun s => s.target == d.id)) = 1) ∧
    (∀ d ∈ ([⟨1, 1, some "tv"⟩, ⟨3, 1, none⟩, ⟨4, 1, some "x"⟩] : List Peer),
      d.subtype ≠ some "tv" → d.subtype ≠ none →
      ((handleMessage
          [("R", ⟨[⟨1, 1, some "tv"⟩, ⟨3, 1, none⟩, ⟨4, 1, some "x"⟩],
            [⟨2, 1, none⟩], none, none⟩)]
          "R" ⟨2, 1, none⟩ (.dpad "left")).2.countP
        (fun s => s.target == d.id)) = 0) ∧
    (∀ c ∈ ([⟨2, 1, none⟩] : List Peer),
      ((handleMessage
          [("R", ⟨[⟨1, 1, some "tv"⟩, ⟨3, 1, none⟩, ⟨4, 1, some "x"⟩],
            [⟨2, 1, none⟩], none, none⟩)]
          "R" ⟨2, 1, none⟩ (.dpad "left")).2.countP
        (fun s => s.target == c.id)) = 0) :=
  dpad_dual_routing
    [("R", ⟨[⟨1, 1, some "tv"⟩, ⟨3, 1, none⟩, ⟨4, 1, some "x"⟩],
      [⟨2, 1, none⟩], none, none⟩)]
    "R" ⟨[⟨1, 1, some "tv"⟩, ⟨3, 1, none⟩, ⟨4, 1, some "x"⟩],
      [⟨2, 1, none⟩], none, none⟩ ⟨2, 1, none⟩ "left"
    (by decide) (by decide) (by decide)

/-- A join event always leaves the room present. -/
theorem reapStep_join_present (s : ReapState) (isD : Bool) (t : Nat) :
    (reapStep s (.joinEv isD t)).present = true := by
  cases isD <;> by_cases hp : s.present <;> simp [reapStep, hp]

/-- A join event leaves the armed timers untouched. -/
theorem reapStep_join_timers (s : ReapState) (isD : Bool) (t : Nat) :
    (reapStep s (.joinEv isD t)).timers = s.timers := by
  cases isD <;> by_cases hp : s.present <;> simp [reapStep, hp]

/-- After a join event at least one peer is in the room. -/
theorem reapStep_join_pos (s : ReapState) (isD : Bool) (t : Nat) :
    0 < (reapStep s (.joinEv isD t)).controllers +
      (reapStep s (.joinEv isD t)).displays := by
  cases isD <;> by_cases hp : s.present <;> simp [reapStep, hp]

/-- A close event never changes presence: the room is not deleted there. -/
theorem reapStep_close_present (s : ReapState) (isD : Bool) (t : Nat) :
    (reapStep s (.closeEv isD t)).present = s.present := by
  cases isD <;> by_cases hp : s.present <;>
    simp only [reapStep, hp, if_true, if_false, Bool.false_eq_true, ite_true, ite_false] <;>
    split <;> simp [hp]

/-- A close event either leaves the timers alone or, when it empties the
room, appends exactly the fire time now + 60000. -/
theorem reapStep_close_timers (s : ReapState) (isD : Bool) (t : Nat) :
    (reapStep s (.closeEv isD t)).timers = s.timers ∨
    ((reapStep s (.closeEv isD t)).timers = s.timers ++ [t + 60000] ∧
      (reapStep s (.closeEv isD t)).controllers = 0 ∧
      (reapStep s (.closeEv isD t)).displays = 0) := by
  cases isD <;> by_cases hp : s.present <;>
    [skip; (exact Or.inl (by simp [reapStep, hp])); skip;
      (exact Or.inl (by simp [reapStep, hp]))] <;>
  · simp only [reapStep, hp, if_true, Bool.false_eq_true, ite_true, ite_false]
    split
    next h => exact Or.inr (by simp_all)
    next h => exact Or.inl rfl

/-- A fire event for a time that was never armed is a no-op. -/
theorem reapStep_fire_not_mem (s : ReapState) (t : Nat) (h : t ∉ s.timers) :
    reapStep s (.fireEv t) = s := by
  simp [reapStep, h]

/-- Timers only shrink at a fire event. -/
theorem reapStep_fire_timers_subset (s : ReapState) (t τ : Nat)
    (h : τ ∈ (reapStep s (.fireEv t)).timers) : τ ∈ s.timers := by
  by_cases ht : t ∈ s.timers
  · simp only [reapStep, ht, if_true] at h
    split at h <;> exact List.mem_of_mem_erase (by simpa using h)
  · rw [reapStep_fire_not_mem s t ht] at h
    exact h

/-- A fire event removes a present room only when its fire time was armed
and both peer sets are empty. -/
theorem reapStep_fire_removed (s : ReapState) (t : Nat) (hp : s.present = true)
    (hrem : (reapStep s (.fireEv t)).present = false) :
    t ∈ s.timers ∧ s.controllers = 0 ∧ s.displays = 0 := by
  by_cases ht : t ∈ s.timers
  · refine ⟨ht, ?_⟩
    simp only [reapStep, ht, if_true] at hrem
    split at hrem
    next h => exact ⟨h.2.2, h.2.1⟩
    next h => simp [hp] at hrem
  · rw [reapStep_fire_not_mem s t ht] at hrem
    simp [hp] at hrem

/-- One-step provenance of armed timers: a timer appears only when a close
event empties the room, and its fire time is the close time plus the 60000
ms grace window. -/
theorem reapStep_timer_from_close (s : ReapState) (e : REvent) (τ : Nat)
    (hmem : τ ∈ (reapStep s e).timers) (hnew : τ ∉ s.timers) :
    ∃ isD t, e = .closeEv isD t ∧ τ = t + 60000 := by
  cases e with
  | joinEv isD t =>
      rw [reapStep_join_timers] at hmem
      exact absurd hmem hnew
  | closeEv isD t =>
      refine ⟨isD, t, rfl, ?_⟩
      rcases reapStep_close_timers s isD t with h | ⟨h, -, -⟩
      · rw [h] at hmem
        exact absurd hmem hnew
      · rw [h] at hmem
        rcases List.mem_append.mp hmem with h1 | h1
        · exact absurd h1 hnew
        · simpa using h1
  | fireEv t =>
      exact absurd (reapStep_fire_timers_subset s t τ hmem) hnew

/-- C3: room reaping respects the grace window. First, the room is removed
from the registry only by an armed cleanup timer firing while both peer sets
are empty, so a session with any peer present is never removed. Second,
every armed timer fires exactly 60000 ms after the close event that emptied
the room, over any run, so removal happens no sooner than the grace window
after the session became empty. Third, once any peer joins the room again,
the next timer firing does not remove it. -/
theorem room_reap_grace :
    (∀ (s : ReapState) (e : REvent), s.present = true →
      (reapStep s e).present = false →
      ∃ t, e = .fireEv t ∧ t ∈ s.timers ∧ s.controllers = 0 ∧ s.displays = 0) ∧
    (∀ (s0 : ReapState) (evts : List REvent) (τ : Nat),
      τ ∈ (reapRun s0 evts).timers →
      τ ∈ s0.timers ∨ ∃ isD t, REvent.closeEv isD t ∈ evts ∧ τ = t + 60000) ∧
    (∀ (s : ReapState) (isD : Bool) (t1 t2 : Nat),
      (reapStep (reapStep s (.joinEv isD t1)) (.fireEv t2)).present = true) := by
  refine ⟨?_, ?_, ?_⟩
  · intro s e hp hrem
    cases e with
    | joinEv isD t =>
        rw [reapStep_join_present] at hrem
        exact absurd hrem (by simp)
    | closeEv isD t =>
        rw [reapStep_close_present, hp] at hrem
        exact absurd hrem (by simp)
    | fireEv t =>
        exact ⟨t, rfl, reapStep_fire_removed s t hp hrem⟩
  · intro s0 evts
    induction evts generalizing s0 with
    | nil => intro τ h; exact Or.inl h
    | cons e evts ih =>
        intro τ h
        rcases ih (reapStep s0 e) τ h with hin | ⟨isD, t, hmem, heq⟩
        · by_cases hold : τ ∈ s0.timers
          · exact Or.inl hold
          · obtain ⟨isD, t, he, heq⟩ := reapStep_timer_from_close s0 e τ hin hold
            exact Or.inr ⟨isD, t, he ▸ List.mem_cons_self e evts, heq⟩
        · exact Or.inr ⟨isD, t, List.mem_cons_of_mem e hmem, heq⟩
  · intro s isD t1 t2
    set s1 := reapStep s (.joinEv isD t1) with hs1
    have hpres : s1.present = true := reapStep_join_present s isD t1
    have hpos : 0 < s1.controllers + s1.displays := reapStep_join_pos s isD t1
    by_cases hrem : (reapStep s1 (.fireEv t2)).present = false
    · obtain ⟨-, hc, hd⟩ := reapStep_fire_removed s1 t2 hpres hrem
      omega
    · simpa using hrem

/-- Witness for C3: the one-step part applied at a state holding an armed
timer for time 60000 with both sets empty, removed by that timer firing. -/
theorem room_reap_grace_witness :
    ∃ t, (REvent.fireEv 60000) = REvent.fireEv t ∧ t ∈ [60000] ∧
      (0 : Nat) = 0 ∧ (0 : Nat) = 0 :=
  room_reap_grace.1 ⟨true, 0, 0, [60000]⟩ (.fireEv 60000) rfl (by decide)

/-- C4 counterexample: the claim says the router first updates activeTab on
a switchTab message; on a live room with activeTab null and one open
display, processing switchTab 5 relays the message but leaves activeTab
null, not 5. -/
theorem switchTab_state_counterexample :
    (lookupRoom
        (handleMessage [("R", ⟨[⟨1, 1, none⟩], [⟨2, 1, none⟩], none, none⟩)]
          "R" ⟨2, 1, none⟩ (.switchTab 5)).1 "R").map Room.activeTab ≠
      some (some 5) ∧
    (handleMessage [("R", ⟨[⟨1, 1, none⟩], [⟨2, 1, none⟩], none, none⟩)]
        "R" ⟨2, 1, none⟩ (.switchTab 5)).2 ≠ [] := by
  decide

/-- C4 amended: on a live session, launchApp stores the appId in activeApp
and then relays the message to the open tv displays, and home clears
activeApp and then relays to the open tv displays; switchTab relays the
re-encoded switchTab message to all open displays without touching any
session-state field, and setProfile has no handler at all: no state change
and no relay. -/
theorem state_mutating_relay
    (rooms : Registry) (roomId : String) (room : Room) (sender : Peer)
    (hroom : lookupRoom rooms roomId = some room) :
    (∀ appId, handleMessage rooms roomId sender (.launchApp appId) =
      (updateRoom rooms roomId { room with activeApp := some appId },
        relayToTv room.displays (.relay (.launchApp appId)))) ∧
    (handleMessage rooms roomId sender .home =
      (updateRoom rooms roomId { room with activeApp := none },
        relayToTv room.displays (.relay .home))) ∧
    (∀ tabId, handleMessage rooms roomId sender (.switchTab tabId) =
      (updateRoom rooms roomId room,
        relayTo room.displays (.relay (.switchTab tabId)))) ∧
    (∀ profile, handleMessage rooms roomId sender (.setProfile profile) =
      (updateRoom rooms roomId room, [])) := by
  refine ⟨?_, ?_, ?_, ?_⟩ <;>
    intros <;> simp [handleMessage, hroom, routeMsg]

/-- Witness for the amended C4 on a concrete room with one open tv display
and one open untagged display. -/
theorem state_mutating_relay_witness :
    (∀ appId, handleMessage
        [("R", ⟨[⟨1, 1, some "tv"⟩, ⟨3, 1, none⟩], [⟨2, 1, none⟩], none, none⟩)]
        "R" ⟨2, 1, none⟩ (.launchApp appId) =
      (updateRoom
          [("R", ⟨[⟨1, 1, some "tv"⟩, ⟨3, 1, none⟩], [⟨2, 1, none⟩], none, none⟩)]
          "R" { displays := [⟨1, 1, some "tv"⟩, ⟨3, 1, none⟩],
                controllers := [⟨2, 1, none⟩], activeTab := none,
                activeApp := some appId },
        relayToTv [⟨1, 1, some "tv"⟩, ⟨3, 1, none⟩] (.relay (.launchApp appId)))) ∧
    (handleMessage
        [("R", ⟨[⟨1, 1, some "tv"⟩, ⟨3, 1, none⟩], [⟨2, 1, none⟩], none, none⟩)]
        "R" ⟨2, 1, none⟩ .home =
      (updateRoom
          [("R", ⟨[⟨1, 1, some "tv"⟩, ⟨3, 1, none⟩], [⟨2, 1, none⟩], none, none⟩)]
          "R" { displays := [⟨1, 1, some "tv"⟩, ⟨3, 1, none⟩],
                controllers := [⟨2, 1, none⟩], activeTab := none,
                activeApp := none },
        relayToTv [⟨1, 1, some "tv"⟩, ⟨3, 1, none⟩] (.relay .home))) ∧
    (∀ tabId, handleMessage
        [("R", ⟨[⟨1, 1, some "tv"⟩, ⟨3, 1, none⟩], [⟨2, 1, none⟩], none, none⟩)]
        "R" ⟨2, 1, none⟩ (.switchTab tabId) =
      (updateRoom
          [("R", ⟨[⟨1, 1, some "tv"⟩, ⟨3, 1, none⟩], [⟨2, 1, none⟩], none, none⟩)]
          "R" ⟨[⟨1, 1, some "tv"⟩, ⟨3, 1, none⟩], [⟨2, 1, none⟩], none, none⟩,
        relayTo [⟨1, 1, some "tv"⟩, ⟨3, 1, none⟩] (.relay (.switchTab tabId)))) ∧
    (∀ profile, handleMessage
        [("R", ⟨[⟨1, 1, some "tv"⟩, ⟨3, 1, none⟩], [⟨2, 1, none⟩], none, none⟩)]
        "R" ⟨2, 1, none⟩ (.setProfile profile) =
      (updateRoom
          [("R", ⟨[⟨1, 1, some "tv"⟩, ⟨3, 1, none⟩], [⟨2, 1, none⟩], none, none⟩)]
          "R" ⟨[⟨1, 1, some "tv"⟩, ⟨3, 1, none⟩], [⟨2, 1, none⟩], none, none⟩,
        [])) :=
  state_mutating_relay
    [("R", ⟨[⟨1, 1, some "tv"⟩, ⟨3, 1, none⟩], [⟨2, 1, none⟩], none, none⟩)]
    "R" ⟨[⟨1, 1, some "tv"⟩, ⟨3, 1, none⟩], [⟨2, 1, none⟩], none, none⟩
    ⟨2, 1, none⟩ rfl

/-- C5: the profile classifier detectSiteProfile maps hostname youtube.com
with path /watch to video, hostname docs.google.com with path
/presentation/d/x to presentation, and hostname example.org with path / to
universal, the fallback returned when no domain/path pattern matches. -/
theorem siteProfile_classification :
    detectSiteProfile "youtube.com" "/watch" = "video" ∧
    detectSiteProfile "docs.google.com" "/presentation/d/x" = "presentation" ∧
    detectSiteProfile "example.org" "/" = "universal" := by
  decide

/-- C6: on the mac nut-js engine, a shortcut made of the platform-modifier
token (cmd, the spec name mod), shift and a base key emits exactly
press(LeftSuper), press(LeftShift), press(base), release(base),
release(LeftShift), release(LeftSuper): modifiers are pressed in listed
order, the base key is pressed then released, modifiers are released in
reverse order, and the command token resolves to the Super (command) key on
mac and to Ctrl elsewhere. -/
theorem shortcut_press_release_order :
    (∀ base k, nutKeyMap (strToLower base) = some k →
      simulateKeystroke true base ["command", "shift"] =
        [.press "LeftSuper", .press "LeftShift", .press k,
          .release k, .release "LeftShift", .release "LeftSuper"]) ∧
    executeShortcut true "cmd+shift+s" =
      [.press "LeftSuper", .press "LeftShift", .press "S",
        .release "S", .release "LeftShift", .release "LeftSuper"] ∧
    nutModMap true "command" = some "LeftSuper" ∧
    nutModMap false "command" = some "LeftControl" := by
  refine ⟨?_, by decide, rfl, rfl⟩
  intro base k hk
  simp [simulateKeystroke, hk, nutModMap]

/-- Witness for C6 at the base key s. -/
theorem shortcut_press_release_order_witness :
    simulateKeystroke true "s" ["command", "shift"] =
      [.press "LeftSuper", .press "LeftShift", .press "S",
        .release "S", .release "LeftShift", .release "LeftSuper"] :=
  shortcut_press_release_order.1 "s" "S" (by decide)

/-- C7 counterexample: the claim says a relative move is clamped to the
screen bounds before the backend is invoked; with the cursor at the origin
of a screen whose bounds start at 0, a move of dx = -5 makes the engine
invoke the backend with x = -10, which lies outside every such screen, so no
clamping happened. -/
theorem mouse_move_unclamped_counterexample :
    simulateMouse 0 0 (-5) 0 (some "move") = [.setPosition (-10) 0] ∧
    ((-10 : Int) < 0) := by
  decide

/-- C7 amended: a relative move computes the target as the last known cursor
position reported by the backend plus twice the delta and passes it to the
backend unchanged; no clamping to screen bounds is performed. -/
theorem mouse_move_no_clamp (posX posY x y : Int) (act : Option String)
    (h : act = some "move" ∨ act = none) :
    simulateMouse posX posY x y act =
      [.setPosition (posX + 2 * x) (posY + 2 * y)] := by
  rcases h with rfl | rfl <;> simp [simulateMouse]

/-- Witness for the amended C7. -/
theorem mouse_move_no_clamp_witness :
    simulateMouse 10 20 3 (-4) (some "move") =
      [.setPosition (10 + 2 * 3) (20 + 2 * (-4))] :=
  mouse_move_no_clamp 10 20 3 (-4) (some "move") (Or.inl rfl)

/-- C8: a non-join message naming a session code absent from the registry is
a silent no-op: the registry is unchanged and nothing is queued to any peer;
the only reply ever produced is the keep-alive pong to the sender itself,
and only for a ping, never an error. -/
theorem unknown_room_silent_noop
    (rooms : Registry) (roomId : String) (sender : Peer) (msg : Msg)
    (hroom : lookupRoom rooms roomId = none)
    (hjoin : ∀ role st, msg ≠ .join role st) :
    (handleMessage rooms roomId sender msg).1 = rooms ∧
    ((handleMessage rooms roomId sender msg).2 = [] ∨
      (msg = .ping ∧
        (handleMessage rooms roomId sender msg).2 = [⟨sender.id, .pong⟩])) := by
  cases msg <;>
    first
      | exact absurd rfl (hjoin _ _)
      | exact ⟨rfl, Or.inr ⟨rfl, rfl⟩⟩
      | exact ⟨by simp [handleMessage, hroom], Or.inl (by simp [handleMessage, hroom])⟩

/-- Witness for C8: an action message for an unknown code on an empty
registry. -/
theorem unknown_room_silent_noop_witness :
    (handleMessage [] "R" ⟨7, 1, none⟩ (.action "up" none)).1 = [] ∧
    ((handleMessage [] "R" ⟨7, 1, none⟩ (.action "up" none)).2 = [] ∨
      ((Msg.action "up" none) = .ping ∧
        (handleMessage [] "R" ⟨7, 1, none⟩ (.action "up" none)).2 =
          [⟨(7 : Nat), .pong⟩])) :=
  unknown_room_silent_noop [] "R" ⟨7, 1, none⟩ (.action "up" none) rfl
    (fun _ _ h => Msg.noConfusion h)

/-- C9: on every disconnect, while fewer than MAX_RECONNECT_ATTEMPTS
consecutive failures have happened the supervisor increments the counter and
schedules a reconnect after 1000 ms times the attempt number, capped at
10000 ms; at the cap it schedules nothing, leaving the client disconnected;
a successful open resets the counter. -/
theorem reconnect_backoff_policy :
    (∀ s : SupState, s.reconnectAttempts < MAX_RECONNECT_ATTEMPTS →
      wsOnClose s = ({ reconnectAttempts := s.reconnectAttempts + 1 },
        some (min (1000 * (s.reconnectAttempts + 1)) 10000))) ∧
    (∀ s : SupState, MAX_RECONNECT_ATTEMPTS ≤ s.reconnectAttempts →
      wsOnClose s = (s, none)) ∧
    (∀ (s : SupState) (d : Nat), (wsOnClose s).2 = some d → d ≤ 10000) ∧
    (∀ s : SupState, wsOnOpen s = { reconnectAttempts := 0 }) := by
  refine ⟨?_, ?_, ?_, ?_⟩
  · intro s h
    simp [wsOnClose, h]
  · intro s h
    simp [wsOnClose, Nat.not_lt.mpr h]
  · intro s d h
    by_cases hlt : s.reconnectAttempts < MAX_RECONNECT_ATTEMPTS
    · simp only [wsOnClose, hlt, if_true, Option.some_inj] at h
      omega
    · simp [wsOnClose, hlt] at h
  · intro s
    rfl

/-- Witness for C9 at a fresh supervisor: the first disconnect schedules a
1000 ms reconnect. -/
theorem reconnect_backoff_policy_witness :
    wsOnClose ⟨0⟩ = (⟨0 + 1⟩, some (min (1000 * (0 + 1)) 10000)) :=
  reconnect_backoff_policy.1 ⟨0⟩ (by decide)

/-- C10: a request to the desktop agent whose path is neither the QR page
nor under /api/license and whose token, taken from the s query parameter or
else the x-session header, differs from the process SESSION_TOKEN, is
answered 403 with the Invalid session error and causes no handler effects:
no input event is synthesized and no agent state changes. -/
theorem session_token_guard
    (sessionToken : String) (req : HttpRequest) (handlerEffects : List String)
    (h1 : req.path ≠ "/")
    (h2 : req.path.startsWith "/api/license" = false)
    (h3 : effectiveToken req ≠ some sessionToken) :
    processRequest sessionToken req handlerEffects =
      (.forbidden "Invalid session", []) := by
  have b1 : (req.path == "/") = false := beq_eq_false_iff_ne.mpr h1
  have b3 : (effectiveToken req == some sessionToken) = false :=
    beq_eq_false_iff_ne.mpr h3
  simp [processRequest, b1, h2, b3]

/-- Witness for C10: a /cmd request without any token against a concrete
process token. -/
theorem session_token_guard_witness :
    processRequest "a3f9c2d1" ⟨"/cmd", none, none⟩ ["synthesizeKey"] =
      (.forbidden "Invalid session", []) :=
  session_token_guard "a3f9c2d1" ⟨"/cmd", none, none⟩ ["synthesizeKey"]
    (by decide) (by decide) (by decide)

end OrbitXE
